import Mathlib

/-!
Shallow embedding of the RT renderer core (`src/renderer.rs`).

The Renderer's observable state is its `SurfaceConfiguration` together with
the `Immediate` block; device, queue, surface, pipeline and window are opaque
handles whose interactions are recorded as an explicit effect trace
(`Effect`).  Machine integers (`u32`) are modelled as `Nat` (the code performs
no arithmetic on them besides comparisons), and `f32` arithmetic is modelled
as exact rational arithmetic over `ℚ`: the only float computation is
`compute_aspect_ratio`, a single division of two converted `u32` values, and
the properties proved about it (the defining formula, and being `≥ 1` on
positive inputs) are stable under correct rounding.

Renaming notes forced by the development conventions: the Rust field
`aspect_ratio` is called `aspect` here, `Immediate::compute_aspect_ratio` is
`Immediate.compute_aspect`, and the `wgpu::CompositeAlphaMode::Opaque`
variant is called `OpaqueMode`.
-/

namespace RT

/-- Model of `wgpu::CompositeAlphaMode` (all five variants; `OpaqueMode`
stands for the `Opaque` variant). -/
inductive CompositeAlphaMode where
  | Auto
  | OpaqueMode
  | PreMultiplied
  | PostMultiplied
  | Inherit
deriving DecidableEq

/-- Minimal model of `wgpu::TextureFormat`: two linear/sRGB pairs plus an
opaque remainder, enough to model `add_srgb_suffix`. -/
inductive TextureFormat where
  | Bgra8Unorm
  | Bgra8UnormSrgb
  | Rgba8Unorm
  | Rgba8UnormSrgb
  | Extra (code : Nat)
deriving DecidableEq

/-- Model of `wgpu::TextureFormat::add_srgb_suffix`: map a linear format to
its sRGB-suffixed variant, identity on everything else. -/
def TextureFormat.add_srgb_suffix : TextureFormat → TextureFormat
  | .Bgra8Unorm => .Bgra8UnormSrgb
  | .Rgba8Unorm => .Rgba8UnormSrgb
  | f => f

/-- Model of `wgpu::PresentMode`. -/
inductive PresentMode where
  | AutoVsync
  | AutoNoVsync
  | Fifo
  | FifoRelaxed
  | Immediate
  | Mailbox
deriving DecidableEq

/-- Model of `wgpu::SurfaceError` (frame-acquire failure classes). -/
inductive SurfaceError where
  | Timeout
  | Outdated
  | Lost
  | OutOfMemory
  | Other
deriving DecidableEq

/-- The bit value of `wgpu::TextureUsages::RENDER_ATTACHMENT` (1 << 4). -/
def RENDER_ATTACHMENT : Nat := 16

/-- Model of `wgpu::SurfaceConfiguration` (renderer.rs lines 78-87): exactly
the fields the source constructs. -/
structure SurfaceConfiguration where
  usage : Nat
  format : TextureFormat
  width : Nat
  height : Nat
  present_mode : PresentMode
  desired_maximum_frame_latency : Nat
  alpha_mode : CompositeAlphaMode
  view_formats : List TextureFormat
deriving DecidableEq

/-- The `Immediate` block (renderer.rs lines 7-12): window size in `u32` and
the aspect-ratio pair, here over exact rationals (field `aspect` models the
Rust field `aspect_ratio`). -/
structure Immediate where
  window_size : Nat × Nat
  aspect : ℚ × ℚ
deriving DecidableEq

/-- Embeds `Immediate::compute_aspect_ratio` (renderer.rs lines 27-33):
`if width < height { [1.0, height/width] } else { [width/height, 1.0] }`. -/
def Immediate.compute_aspect (window_width window_height : Nat) : ℚ × ℚ :=
  if window_width < window_height then
    (1, (window_height : ℚ) / (window_width : ℚ))
  else
    ((window_width : ℚ) / (window_height : ℚ), 1)

/-- Embeds `Immediate::new` (renderer.rs lines 15-20). -/
def Immediate.new (window_width window_height : Nat) : Immediate :=
  { window_size := (window_width, window_height)
    aspect := Immediate.compute_aspect window_width window_height }

/-- Embeds `Immediate::update_window_size` (renderer.rs lines 22-25). -/
def Immediate.update_window_size (im : Immediate) (window_width window_height : Nat) : Immediate :=
  { im with
    window_size := (window_width, window_height)
    aspect := Immediate.compute_aspect window_width window_height }

/-- The capability set reported by `surface.get_capabilities(&adapter)`:
the two lists the source reads. -/
structure SurfaceCapabilities where
  formats : List TextureFormat
  alpha_modes : List CompositeAlphaMode
deriving DecidableEq

/-- Error classes of `Renderer::new`.  `noSurfaceFormat` and `noAlphaMode`
are the two `CapabilityMissing` anyhow errors of renderer.rs lines 208 and
222; `zeroExtent` models the `wgpu` validation panic raised by
`surface.configure` when width or height is zero (the spec's
"reconfiguration with zero extent is forbidden"). -/
inductive RendererError where
  | noSurfaceFormat
  | noAlphaMode
  | zeroExtent
deriving DecidableEq

/-- Renderer state: the mutable data of `struct Renderer` (renderer.rs lines
36-44).  The device, queue, surface, pipeline and window handles are opaque
and interaction with them is recorded in the effect trace instead. -/
structure Renderer where
  surface_config : SurfaceConfiguration
  immediate : Immediate
deriving DecidableEq

/-- Externally visible actions of the Renderer: surface reconfiguration,
texture-view creation (with the requested view format), queue submit,
`pre_present_notify`, frame present, and an error log line. -/
inductive Effect where
  | configure (config : SurfaceConfiguration)
  | createView (view_format : TextureFormat)
  | submit
  | prePresentNotify
  | present
  | logError (e : SurfaceError)
deriving DecidableEq

instance {ε α : Type} [DecidableEq ε] [DecidableEq α] : DecidableEq (Except ε α) := fun x y =>
  match x, y with
  | .error a, .error b =>
    if h : a = b then .isTrue (by rw [h]) else .isFalse (fun hc => h (Except.error.inj hc))
  | .ok a, .ok b =>
    if h : a = b then .isTrue (by rw [h]) else .isFalse (fun hc => h (Except.ok.inj hc))
  | .error _, .ok _ => .isFalse (fun hc => Except.noConfusion hc)
  | .ok _, .error _ => .isFalse (fun hc => Except.noConfusion hc)

/-- Embeds `Renderer::find_surface_format` (renderer.rs lines 207-209):
`surface_caps.formats.first().copied().ok_or(...)`. -/
def Renderer.find_surface_format (surface_caps : SurfaceCapabilities) :
    Except RendererError TextureFormat :=
  match surface_caps.formats with
  | [] => .error .noSurfaceFormat
  | f :: _ => .ok f

/-- Embeds the `alpha_mode_preference` closure of `Renderer::find_alpha_mode`
(renderer.rs lines 212-220). -/
def Renderer.alpha_mode_preference : CompositeAlphaMode → Nat
  | .Inherit => 1
  | .PreMultiplied => 2
  | .PostMultiplied => 3
  | .OpaqueMode => 4
  | _ => 5

/-- Embeds Rust's `Iterator::min_by_key` run from a first element `x` over
the rest of the list: the running minimum is replaced only on a strictly
smaller key, so among equal keys the first occurrence wins (Rust's
documented tie-breaking for `min_by_key`). -/
def min_by_key_from (pref : α → Nat) (x : α) : List α → α
  | [] => x
  | y :: ys => min_by_key_from pref (if pref y < pref x then y else x) ys

/-- Embeds `Renderer::find_alpha_mode` (renderer.rs lines 211-223):
`alpha_modes.iter().min_by_key(pref).copied().ok_or(...)`. -/
def Renderer.find_alpha_mode (surface_caps : SurfaceCapabilities) :
    Except RendererError CompositeAlphaMode :=
  match surface_caps.alpha_modes with
  | [] => .error .noAlphaMode
  | m :: ms => .ok (min_by_key_from Renderer.alpha_mode_preference m ms)

/-- The surface-configuration record literal of renderer.rs lines 78-87:
usage = RENDER_ATTACHMENT, format and alpha mode from capability selection,
extent = window inner size, present mode AutoVsync, frame latency 2, and
view formats = the single sRGB-suffixed variant of the chosen format. -/
def Renderer.new_surface_config (size : Nat × Nat) (surface_format : TextureFormat)
    (alpha_mode : CompositeAlphaMode) : SurfaceConfiguration :=
  { usage := RENDER_ATTACHMENT
    format := surface_format
    width := size.1
    height := size.2
    present_mode := .AutoVsync
    desired_maximum_frame_latency := 2
    alpha_mode := alpha_mode
    view_formats := [surface_format.add_srgb_suffix] }

/-- Embeds the state- and capability-relevant part of `Renderer::new`
(renderer.rs lines 59-108).  Device acquisition is external and assumed
successful; the two `?` propagations on capability selection are the nested
matches; the `surface.configure(&device, &surface_config)` call at line 89
is recorded as an effect, and its `wgpu` zero-extent validation panic is
modelled as the `zeroExtent` error. -/
def Renderer.new (size : Nat × Nat) (surface_caps : SurfaceCapabilities) :
    Except RendererError (Renderer × List Effect) :=
  match Renderer.find_surface_format surface_caps with
  | .error e => .error e
  | .ok surface_format =>
    match Renderer.find_alpha_mode surface_caps with
    | .error e => .error e
    | .ok alpha_mode =>
      let surface_config := Renderer.new_surface_config size surface_format alpha_mode
      if size.1 = 0 ∨ size.2 = 0 then
        .error .zeroExtent
      else
        .ok ({ surface_config := surface_config
               immediate := Immediate.new size.1 size.2 },
             [.configure surface_config])

/-- Embeds `Renderer::resize` (renderer.rs lines 110-118); `size` is the
window's current inner size read at line 111. -/
def Renderer.resize (r : Renderer) (size : Nat × Nat) : Renderer × List Effect :=
  if 0 < size.1 ∧ 0 < size.2 then
    let config := { r.surface_config with width := size.1, height := size.2 }
    ({ surface_config := config
       immediate := r.immediate.update_window_size size.1 size.2 },
     [.configure config])
  else
    (r, [])

/-- Embeds `Renderer::render` (renderer.rs lines 120-169); `size` is the
window size `resize` would read, `acquire` the outcome of
`surface.get_current_texture()`.  On success the call creates a view with
the sRGB-suffixed configured format, submits once, calls
`pre_present_notify`, and presents. -/
def Renderer.render (r : Renderer) (size : Nat × Nat)
    (acquire : Except SurfaceError Unit) : Renderer × List Effect :=
  match acquire with
  | .error .Outdated => r.resize size
  | .error .Lost => r.resize size
  | .error e => (r, [.logError e])
  | .ok _ =>
    (r, [.createView (r.surface_config.format.add_srgb_suffix),
         .submit, .prePresentNotify, .present])

/-- One event-loop interaction with the Renderer after construction. -/
inductive Call where
  | resize (size : Nat × Nat)
  | render (size : Nat × Nat) (acquire : Except SurfaceError Unit)

/-- Dispatch one call. -/
def Renderer.step (r : Renderer) : Call → Renderer × List Effect
  | .resize size => r.resize size
  | .render size acquire => r.render size acquire

/-- Resulting state of a sequence of calls. -/
def Renderer.run (r : Renderer) : List Call → Renderer
  | [] => r
  | c :: cs => Renderer.run (r.step c).1 cs

/-- State invariant maintained between calls: positive configured extent,
positive recorded window size, and the aspect pair is the one computed from
the recorded window size. -/
def StateInv (r : Renderer) : Prop :=
  0 < r.surface_config.width ∧ 0 < r.surface_config.height ∧
  0 < r.immediate.window_size.1 ∧ 0 < r.immediate.window_size.2 ∧
  r.immediate.aspect =
    Immediate.compute_aspect r.immediate.window_size.1 r.immediate.window_size.2

/-- The surface-configuration fields other than width and height agree
between two states. -/
def ConfigFixed (r₀ r : Renderer) : Prop :=
  r.surface_config.usage = r₀.surface_config.usage ∧
  r.surface_config.format = r₀.surface_config.format ∧
  r.surface_config.present_mode = r₀.surface_config.present_mode ∧
  r.surface_config.desired_maximum_frame_latency =
    r₀.surface_config.desired_maximum_frame_latency ∧
  r.surface_config.alpha_mode = r₀.surface_config.alpha_mode ∧
  r.surface_config.view_formats = r₀.surface_config.view_formats

/-- Concrete capability set used by witnesses. -/
def sampleCaps : SurfaceCapabilities :=
  { formats := [.Bgra8Unorm], alpha_modes := [.OpaqueMode, .Inherit] }

/-- The renderer state `Renderer.new (800, 600) sampleCaps` produces: the
selected format is the first reported one and the selected alpha mode is
Inherit (rank 1 beats Opaque's rank 4). -/
def sampleNew : Renderer :=
  { surface_config := Renderer.new_surface_config (800, 600) .Bgra8Unorm .Inherit
    immediate := Immediate.new 800 600 }

/-- Concrete call sequence used by witnesses: a resize, a successful frame,
a minimized-window resize, and a frame dropped on `Outdated`. -/
def sampleCalls : List Call :=
  [Call.resize (1024, 768),
   Call.render (1024, 768) (.ok ()),
   Call.resize (0, 768),
   Call.render (400, 800) (.error .Outdated)]

theorem min_by_key_from_mem (pref : α → Nat) (x : α) (l : List α) :
    min_by_key_from pref x l ∈ x :: l := by
  induction l generalizing x with
  | nil => simp [min_by_key_from]
  | cons y ys ih =>
    by_cases hc : pref y < pref x
    · rw [min_by_key_from, if_pos hc]
      rcases List.mem_cons.mp (ih y) with h | h
      · simp [h]
      · simp [h]
    · rw [min_by_key_from, if_neg hc]
      rcases List.mem_cons.mp (ih x) with h | h
      · simp [h]
      · simp [h]

theorem min_by_key_from_le (pref : α → Nat) (x : α) (l : List α) :
    ∀ z ∈ x :: l, pref (min_by_key_from pref x l) ≤ pref z := by
  induction l generalizing x with
  | nil =>
    intro z hz
    rw [List.mem_singleton] at hz
    subst hz
    simp [min_by_key_from]
  | cons y ys ih =>
    intro z hz
    by_cases hc : pref y < pref x
    · rw [min_by_key_from, if_pos hc]
      rcases List.mem_cons.mp hz with rfl | hz
      · exact le_trans (ih y y (List.mem_cons_self y ys)) (Nat.le_of_lt hc)
      · exact ih y z hz
    · rw [min_by_key_from, if_neg hc]
      rcases List.mem_cons.mp hz with rfl | hz
      · exact ih z z (List.mem_cons_self z ys)
      · rcases List.mem_cons.mp hz with rfl | hz
        · exact le_trans (ih x x (List.mem_cons_self x ys)) (Nat.le_of_not_lt hc)
        · exact ih x z (List.mem_cons_of_mem x hz)

theorem min_by_key_from_first (pref : α → Nat) (x : α) (l : List α) :
    ∃ l₁ l₂, x :: l = l₁ ++ min_by_key_from pref x l :: l₂ ∧
      ∀ z ∈ l₁, pref (min_by_key_from pref x l) < pref z := by
  induction l generalizing x with
  | nil => exact ⟨[], [], by simp [min_by_key_from], by simp⟩
  | cons y ys ih =>
    by_cases hc : pref y < pref x
    · rw [min_by_key_from, if_pos hc]
      obtain ⟨l₁, l₂, heq, hlt⟩ := ih y
      refine ⟨x :: l₁, l₂, ?_, ?_⟩
      · rw [List.cons_append, ← heq]
      · intro z hz
        rcases List.mem_cons.mp hz with rfl | hz
        · exact lt_of_le_of_lt (min_by_key_from_le pref y ys y (List.mem_cons_self y ys)) hc
        · exact hlt z hz
    · rw [min_by_key_from, if_neg hc]
      obtain ⟨l₁, l₂, heq, hlt⟩ := ih x
      cases l₁ with
      | nil =>
        rw [List.nil_append] at heq
        injection heq with h1 h2
        refine ⟨[], y :: l₂, ?_, by simp⟩
        rw [List.nil_append, ← h1, h2]
      | cons a l₁x =>
        rw [List.cons_append] at heq
        injection heq with h1 h2
        subst h1
        have hminx : pref (min_by_key_from pref x ys) < pref x :=
          hlt x (List.mem_cons_self x l₁x)
        refine ⟨x :: y :: l₁x, l₂, ?_, ?_⟩
        · rw [List.cons_append, List.cons_append, ← h2]
        · intro z hz
          rcases List.mem_cons.mp hz with rfl | hz
          · exact hminx
          · rcases List.mem_cons.mp hz with rfl | hz
            · exact lt_of_lt_of_le hminx (Nat.le_of_not_lt hc)
            · exact hlt z (List.mem_cons_of_mem x hz)

/-- Claim C1: for every non-empty list of reported composite-alpha modes,
`find_alpha_mode` returns the mode with the lowest preference rank
(Inherit=1, PreMultiplied=2, PostMultiplied=3, Opaque=4, any other=5), ties
resolving to the first occurrence in the reported sequence (every mode
strictly before the returned one has strictly greater rank); for the empty
list it fails with the CapabilityMissing error. -/
theorem find_alpha_mode_minimal (surface_caps : SurfaceCapabilities) :
    (surface_caps.alpha_modes = [] →
      Renderer.find_alpha_mode surface_caps = .error .noAlphaMode) ∧
    (surface_caps.alpha_modes ≠ [] →
      ∃ m, Renderer.find_alpha_mode surface_caps = .ok m ∧
        m ∈ surface_caps.alpha_modes ∧
        (∀ z ∈ surface_caps.alpha_modes,
          Renderer.alpha_mode_preference m ≤ Renderer.alpha_mode_preference z) ∧
        ∃ l₁ l₂, surface_caps.alpha_modes = l₁ ++ m :: l₂ ∧
          ∀ z ∈ l₁,
            Renderer.alpha_mode_preference m < Renderer.alpha_mode_preference z) := by
  constructor
  · intro h
    simp [Renderer.find_alpha_mode, h]
  · intro h
    rcases hm : surface_caps.alpha_modes with _ | ⟨m, ms⟩
    · exact absurd hm h
    · refine ⟨min_by_key_from Renderer.alpha_mode_preference m ms, ?_, ?_, ?_, ?_⟩
      · simp [Renderer.find_alpha_mode, hm]
      · exact min_by_key_from_mem _ m ms
      · exact min_by_key_from_le _ m ms
      · exact min_by_key_from_first _ m ms

/-- Witness for C1: the empty capability set fails, and on
`sampleCaps.alpha_modes = [Opaque, Inherit]` the theorem yields the
minimal-rank first-occurrence selection. -/
theorem find_alpha_mode_minimal_witness :
    (Renderer.find_alpha_mode { formats := [], alpha_modes := [] } = .error .noAlphaMode) ∧
    (∃ m, Renderer.find_alpha_mode sampleCaps = .ok m ∧
      m ∈ sampleCaps.alpha_modes ∧
      (∀ z ∈ sampleCaps.alpha_modes,
        Renderer.alpha_mode_preference m ≤ Renderer.alpha_mode_preference z) ∧
      ∃ l₁ l₂, sampleCaps.alpha_modes = l₁ ++ m :: l₂ ∧
        ∀ z ∈ l₁,
          Renderer.alpha_mode_preference m < Renderer.alpha_mode_preference z) :=
  ⟨(find_alpha_mode_minimal { formats := [], alpha_modes := [] }).1 rfl,
   (find_alpha_mode_minimal sampleCaps).2 (by decide)⟩

/-- Claim C9: `find_surface_format` fails with the CapabilityMissing error
exactly when the reported format list is empty, and returns the first entry
otherwise. -/
theorem find_surface_format_first (surface_caps : SurfaceCapabilities) :
    (Renderer.find_surface_format surface_caps = .error .noSurfaceFormat ↔
      surface_caps.formats = []) ∧
    (∀ f rest, surface_caps.formats = f :: rest →
      Renderer.find_surface_format surface_caps = .ok f) := by
  rcases hm : surface_caps.formats with _ | ⟨f, fs⟩
  · refine ⟨?_, ?_⟩
    · simp [Renderer.find_surface_format, hm]
    · intro g rest hg
      exact absurd hg (by simp)
  · refine ⟨?_, ?_⟩
    · simp [Renderer.find_surface_format, hm]
    · intro g rest hg
      injection hg with h1 h2
      simp [Renderer.find_surface_format, hm, h1]

/-- Witness for C9: empty list fails, and on `sampleCaps.formats =
[Bgra8Unorm]` the first format is returned. -/
theorem find_surface_format_first_witness :
    (Renderer.find_surface_format { formats := [], alpha_modes := [] } = .error .noSurfaceFormat ↔
      ({ formats := [], alpha_modes := [] } : SurfaceCapabilities).formats = []) ∧
    Renderer.find_surface_format sampleCaps = .ok .Bgra8Unorm :=
  ⟨(find_surface_format_first { formats := [], alpha_modes := [] }).1,
   (find_surface_format_first sampleCaps).2 .Bgra8Unorm [] rfl⟩

theorem render_ok_eq (r : Renderer) (size : Nat × Nat) :
    r.render size (.ok ()) =
      (r, [.createView (r.surface_config.format.add_srgb_suffix),
           .submit, .prePresentNotify, .present]) := rfl

/-- Claim C2: for every size (w,h) with w>0 and h>0 read from the window,
after `resize()` the surface configuration's width and height equal (w,h),
`surface.configure` has been called with exactly that configuration, and
`Immediate.window_size` equals [w,h]. -/
theorem resize_nonzero (r : Renderer) (w h : Nat) (hw : 0 < w) (hh : 0 < h) :
    (r.resize (w, h)).1.surface_config.width = w ∧
    (r.resize (w, h)).1.surface_config.height = h ∧
    (r.resize (w, h)).2 = [.configure (r.resize (w, h)).1.surface_config] ∧
    (r.resize (w, h)).1.immediate.window_size = (w, h) := by
  simp [Renderer.resize, hw, hh, Immediate.update_window_size]

/-- Witness for C2 at the 800×600 sample state resized to 1024×768. -/
theorem resize_nonzero_witness :
    (0 < 1024 ∧ 0 < 768) ∧
    ((sampleNew.resize (1024, 768)).1.surface_config.width = 1024 ∧
     (sampleNew.resize (1024, 768)).1.surface_config.height = 768 ∧
     (sampleNew.resize (1024, 768)).2 =
       [.configure (sampleNew.resize (1024, 768)).1.surface_config] ∧
     (sampleNew.resize (1024, 768)).1.immediate.window_size = (1024, 768)) :=
  ⟨by decide, resize_nonzero sampleNew 1024 768 (by decide) (by decide)⟩

/-- Claim C3: if the window's current inner size has either dimension equal
to 0, `resize()` is a no-op: the whole state is unchanged and
`surface.configure` is not called (no effect). -/
theorem resize_zero (r : Renderer) (w h : Nat) (hzero : w = 0 ∨ h = 0) :
    r.resize (w, h) = (r, []) := by
  rcases hzero with rfl | rfl
  · simp [Renderer.resize]
  · simp [Renderer.resize]

/-- Witness for C3: resizing the sample state while the window reports
width 0 changes nothing. -/
theorem resize_zero_witness :
    ((0 : Nat) = 0 ∨ (600 : Nat) = 0) ∧ sampleNew.resize (0, 600) = (sampleNew, []) :=
  ⟨Or.inl rfl, resize_zero sampleNew 0 600 (Or.inl rfl)⟩

/-- Claim C6: two consecutive `resize()` calls while the window reports the
same size produce a state identical to the state after the first call. -/
theorem resize_idempotent (r : Renderer) (size : Nat × Nat) :
    ((r.resize size).1.resize size).1 = (r.resize size).1 := by
  by_cases hp : 0 < size.1 ∧ 0 < size.2
  · simp [Renderer.resize, hp, Immediate.update_window_size]
  · simp [Renderer.resize, hp]

/-- Claim C7: when the frame acquire in `render()` fails with Outdated or
Lost, that call performs exactly one `resize()` (whose single configure is
the only effect when the window size is nonzero) with zero submits and zero
presents, the state is exactly the resize result, and a subsequent
`render()` with a successful acquire proceeds normally (view, submit,
notify, present). -/
theorem render_transient_recovery (r : Renderer) (size size2 : Nat × Nat)
    (e : SurfaceError) (he : e = .Outdated ∨ e = .Lost) :
    r.render size (.error e) = r.resize size ∧
    Effect.submit ∉ (r.render size (.error e)).2 ∧
    Effect.present ∉ (r.render size (.error e)).2 ∧
    (0 < size.1 → 0 < size.2 →
      (r.render size (.error e)).2 =
        [.configure (r.render size (.error e)).1.surface_config]) ∧
    ((r.render size (.error e)).1.render size2 (.ok ())).2 =
      [.createView
        ((r.render size (.error e)).1.surface_config.format.add_srgb_suffix),
       .submit, .prePresentNotify, .present] := by
  have hre : r.render size (.error e) = r.resize size := by
    rcases he with rfl | rfl
    · rfl
    · rfl
  refine ⟨hre, ?_, ?_, ?_, ?_⟩
  · rw [hre]
    by_cases hp : 0 < size.1 ∧ 0 < size.2
    · simp [Renderer.resize, hp]
    · simp [Renderer.resize, hp]
  · rw [hre]
    by_cases hp : 0 < size.1 ∧ 0 < size.2
    · simp [Renderer.resize, hp]
    · simp [Renderer.resize, hp]
  · intro h1 h2
    rw [hre]
    simp [Renderer.resize, h1, h2]
  · rw [hre]
    rfl

/-- Witness for C7: an Outdated acquire at 640×480 on the sample state. -/
theorem render_transient_recovery_witness :
    (SurfaceError.Outdated = SurfaceError.Outdated ∨
      SurfaceError.Outdated = SurfaceError.Lost) ∧
    (sampleNew.render (640, 480) (.error .Outdated) = sampleNew.resize (640, 480) ∧
     Effect.submit ∉ (sampleNew.render (640, 480) (.error .Outdated)).2 ∧
     Effect.present ∉ (sampleNew.render (640, 480) (.error .Outdated)).2 ∧
     (0 < 640 → 0 < 480 →
       (sampleNew.render (640, 480) (.error .Outdated)).2 =
         [.configure (sampleNew.render (640, 480) (.error .Outdated)).1.surface_config]) ∧
     ((sampleNew.render (640, 480) (.error .Outdated)).1.render (800, 600) (.ok ())).2 =
       [.createView
         ((sampleNew.render (640, 480)
             (.error .Outdated)).1.surface_config.format.add_srgb_suffix),
        .submit, .prePresentNotify, .present]) :=
  ⟨Or.inl rfl,
   render_transient_recovery sampleNew (640, 480) (800, 600) .Outdated (Or.inl rfl)⟩

/-- Claim C8: a successful acquire is followed by exactly one submit and one
present for that frame, in that order with `pre_present_notify` between
them, and leaves the state unchanged; on an acquire error other than
Outdated/Lost the error is logged and the call returns with no submit and
no present (the frame is never partially submitted). -/
theorem render_acquire_discipline (r : Renderer) (size : Nat × Nat) (e : SurfaceError)
    (he1 : e ≠ .Outdated) (he2 : e ≠ .Lost) :
    r.render size (.ok ()) =
      (r, [.createView (r.surface_config.format.add_srgb_suffix),
           .submit, .prePresentNotify, .present]) ∧
    r.render size (.error e) = (r, [.logError e]) ∧
    Effect.submit ∉ (r.render size (.error e)).2 ∧
    Effect.present ∉ (r.render size (.error e)).2 := by
  have herr : r.render size (.error e) = (r, [.logError e]) := by
    cases e with
    | Timeout => rfl
    | Outdated => exact absurd rfl he1
    | Lost => exact absurd rfl he2
    | OutOfMemory => rfl
    | Other => rfl
  refine ⟨rfl, herr, ?_, ?_⟩
  · rw [herr]
    simp
  · rw [herr]
    simp

/-- Witness for C8: a successful acquire and a Timeout acquire on the
sample state. -/
theorem render_acquire_discipline_witness :
    (SurfaceError.Timeout ≠ SurfaceError.Outdated ∧
      SurfaceError.Timeout ≠ SurfaceError.Lost) ∧
    (sampleNew.render (800, 600) (.ok ()) =
      (sampleNew, [.createView (sampleNew.surface_config.format.add_srgb_suffix),
                   .submit, .prePresentNotify, .present]) ∧
     sampleNew.render (800, 600) (.error .Timeout) =
       (sampleNew, [.logError .Timeout]) ∧
     Effect.submit ∉ (sampleNew.render (800, 600) (.error .Timeout)).2 ∧
     Effect.present ∉ (sampleNew.render (800, 600) (.error .Timeout)).2) :=
  ⟨by decide,
   render_acquire_discipline sampleNew (800, 600) .Timeout (by decide) (by decide)⟩

theorem new_ok_iff (size : Nat × Nat) (surface_caps : SurfaceCapabilities)
    (r : Renderer) (effs : List Effect) :
    Renderer.new size surface_caps = .ok (r, effs) ↔
      ∃ f a, Renderer.find_surface_format surface_caps = .ok f ∧
        Renderer.find_alpha_mode surface_caps = .ok a ∧
        0 < size.1 ∧ 0 < size.2 ∧
        r = { surface_config := Renderer.new_surface_config size f a
              immediate := Immediate.new size.1 size.2 } ∧
        effs = [.configure (Renderer.new_surface_config size f a)] := by
  constructor
  · intro h
    cases hf : Renderer.find_surface_format surface_caps with
    | error e => simp [Renderer.new, hf] at h
    | ok f =>
      cases ha : Renderer.find_alpha_mode surface_caps with
      | error e => simp [Renderer.new, hf, ha] at h
      | ok a =>
        by_cases hz : size.1 = 0 ∨ size.2 = 0
        · rcases hz with h0 | h0 <;> simp [Renderer.new, hf, ha, h0] at h
        · push_neg at hz
          simp [Renderer.new, hf, ha, hz.1, hz.2] at h
          exact ⟨f, a, rfl, rfl, Nat.pos_of_ne_zero hz.1, Nat.pos_of_ne_zero hz.2,
            h.1.symm, h.2.symm⟩
  · rintro ⟨f, a, hf, ha, h1, h2, rfl, rfl⟩
    simp [Renderer.new, hf, ha, Nat.pos_iff_ne_zero.mp h1, Nat.pos_iff_ne_zero.mp h2]

theorem new_ok_inv {size : Nat × Nat} {surface_caps : SurfaceCapabilities}
    {r : Renderer} {effs : List Effect}
    (h : Renderer.new size surface_caps = .ok (r, effs)) : StateInv r := by
  obtain ⟨f, a, -, -, h1, h2, rfl, -⟩ := (new_ok_iff size surface_caps r effs).mp h
  exact ⟨h1, h2, h1, h2, rfl⟩

theorem resize_inv {r : Renderer} (size : Nat × Nat) (hr : StateInv r) :
    StateInv (r.resize size).1 := by
  by_cases hp : 0 < size.1 ∧ 0 < size.2
  · unfold Renderer.resize
    rw [if_pos hp]
    exact ⟨hp.1, hp.2, hp.1, hp.2, rfl⟩
  · unfold Renderer.resize
    rw [if_neg hp]
    exact hr

theorem step_inv {r : Renderer} (c : Call) (hr : StateInv r) :
    StateInv (r.step c).1 := by
  cases c with
  | resize size => exact resize_inv size hr
  | render size acquire =>
    cases acquire with
    | ok v => exact hr
    | error e =>
      cases e with
      | Timeout => exact hr
      | Outdated => exact resize_inv size hr
      | Lost => exact resize_inv size hr
      | OutOfMemory => exact hr
      | Other => exact hr

theorem run_inv {r : Renderer} (calls : List Call) (hr : StateInv r) :
    StateInv (r.run calls) := by
  induction calls generalizing r with
  | nil => exact hr
  | cons c cs ih =>
    simp only [Renderer.run]
    exact ih (step_inv c hr)

theorem config_fixed_refl (r : Renderer) : ConfigFixed r r :=
  ⟨rfl, rfl, rfl, rfl, rfl, rfl⟩

theorem config_fixed_trans {a b c : Renderer}
    (h1 : ConfigFixed a b) (h2 : ConfigFixed b c) : ConfigFixed a c := by
  obtain ⟨u1, f1, p1, d1, a1, v1⟩ := h1
  obtain ⟨u2, f2, p2, d2, a2, v2⟩ := h2
  exact ⟨u2.trans u1, f2.trans f1, p2.trans p1, d2.trans d1, a2.trans a1, v2.trans v1⟩

theorem resize_config_fixed (r : Renderer) (size : Nat × Nat) :
    ConfigFixed r (r.resize size).1 := by
  by_cases hp : 0 < size.1 ∧ 0 < size.2
  · unfold Renderer.resize
    rw [if_pos hp]
    exact ⟨rfl, rfl, rfl, rfl, rfl, rfl⟩
  · unfold Renderer.resize
    rw [if_neg hp]
    exact config_fixed_refl r

theorem step_config_fixed (r : Renderer) (c : Call) :
    ConfigFixed r (r.step c).1 := by
  cases c with
  | resize size => exact resize_config_fixed r size
  | render size acquire =>
    cases acquire with
    | ok v => exact config_fixed_refl r
    | error e =>
      cases e with
      | Timeout => exact config_fixed_refl r
      | Outdated => exact resize_config_fixed r size
      | Lost => exact resize_config_fixed r size
      | OutOfMemory => exact config_fixed_refl r
      | Other => exact config_fixed_refl r

theorem run_config_fixed (r : Renderer) (calls : List Call) :
    ConfigFixed r (r.run calls) := by
  induction calls generalizing r with
  | nil => exact config_fixed_refl r
  | cons c cs ih =>
    simp only [Renderer.run]
    exact config_fixed_trans (step_config_fixed r c) (ih (r.step c).1)

theorem createView_in_render {r : Renderer} {size : Nat × Nat}
    {acquire : Except SurfaceError Unit} {f : TextureFormat}
    (h : Effect.createView f ∈ (r.render size acquire).2) :
    f = r.surface_config.format.add_srgb_suffix := by
  cases acquire with
  | ok v =>
    cases v
    simp [Renderer.render] at h
    exact h
  | error e =>
    have hres : ∀ g, Effect.createView g ∈ (r.resize size).2 → False := by
      intro g hg
      by_cases hp : 0 < size.1 ∧ 0 < size.2
      · simp [Renderer.resize, hp] at hg
      · simp [Renderer.resize, hp] at hg
    cases e with
    | Timeout => simp [Renderer.render] at h
    | Outdated => exact absurd h (fun hg => hres f hg)
    | Lost => exact absurd h (fun hg => hres f hg)
    | OutOfMemory => simp [Renderer.render] at h
    | Other => simp [Renderer.render] at h

/-- Claim C4: at every point between calls after successful construction —
including immediately after `Renderer::new` returns (`calls = []`) — the
surface configuration's width and height are positive, for every initial
window size and capability set admitting a successful construction and
every subsequent sequence of resize/render calls. -/
theorem surface_extent_positive (size : Nat × Nat) (surface_caps : SurfaceCapabilities)
    (r : Renderer) (effs : List Effect)
    (h : Renderer.new size surface_caps = .ok (r, effs)) (calls : List Call) :
    0 < (r.run calls).surface_config.width ∧
    0 < (r.run calls).surface_config.height := by
  obtain ⟨hw, hh, -⟩ := run_inv calls (new_ok_inv h)
  exact ⟨hw, hh⟩

/-- Witness for C4: construction at 800×600 followed by the sample call
sequence. -/
theorem surface_extent_positive_witness :
    Renderer.new (800, 600) sampleCaps =
      .ok (sampleNew, [.configure sampleNew.surface_config]) ∧
    (0 < (sampleNew.run sampleCalls).surface_config.width ∧
     0 < (sampleNew.run sampleCalls).surface_config.height) :=
  ⟨rfl,
   surface_extent_positive (800, 600) sampleCaps sampleNew
     [.configure sampleNew.surface_config] rfl sampleCalls⟩

/-- Claim C5: in every reachable state after successful construction, with
(w,h) the state's recorded window size, the aspect pair equals [1, h/w]
when w < h and [w/h, 1] otherwise (float division modelled as exact
rational division of the converted integers), so its minimum is 1 and both
components are ≥ 1. -/
theorem aspect_pair_normalized (size : Nat × Nat) (surface_caps : SurfaceCapabilities)
    (r : Renderer) (effs : List Effect)
    (h : Renderer.new size surface_caps = .ok (r, effs)) (calls : List Call) :
    ((r.run calls).immediate.aspect =
      if (r.run calls).immediate.window_size.1 < (r.run calls).immediate.window_size.2 then
        (1, ((r.run calls).immediate.window_size.2 : ℚ) /
          ((r.run calls).immediate.window_size.1 : ℚ))
      else
        (((r.run calls).immediate.window_size.1 : ℚ) /
          ((r.run calls).immediate.window_size.2 : ℚ), 1)) ∧
    min (r.run calls).immediate.aspect.1 (r.run calls).immediate.aspect.2 = 1 ∧
    1 ≤ (r.run calls).immediate.aspect.1 ∧
    1 ≤ (r.run calls).immediate.aspect.2 := by
  obtain ⟨-, -, hw, hh, hasp⟩ := run_inv calls (new_ok_inv h)
  rw [Immediate.compute_aspect] at hasp
  refine ⟨hasp, ?_⟩
  by_cases hlt :
      (r.run calls).immediate.window_size.1 < (r.run calls).immediate.window_size.2
  · rw [if_pos hlt] at hasp
    rw [hasp]
    have h1 : (1 : ℚ) ≤ ((r.run calls).immediate.window_size.2 : ℚ) /
        ((r.run calls).immediate.window_size.1 : ℚ) := by
      rw [one_le_div (by exact_mod_cast hw)]
      exact_mod_cast Nat.le_of_lt hlt
    exact ⟨min_eq_left h1, le_refl 1, h1⟩
  · rw [if_neg hlt] at hasp
    rw [hasp]
    have h1 : (1 : ℚ) ≤ ((r.run calls).immediate.window_size.1 : ℚ) /
        ((r.run calls).immediate.window_size.2 : ℚ) := by
      rw [one_le_div (by exact_mod_cast hh)]
      exact_mod_cast Nat.le_of_not_lt hlt
    exact ⟨min_eq_right h1, h1, le_refl 1⟩

/-- Witness for C5: construction at 800×600 followed by the sample call
sequence, whose last resize leaves the window at 400×800. -/
theorem aspect_pair_normalized_witness :
    Renderer.new (800, 600) sampleCaps =
      .ok (sampleNew, [.configure sampleNew.surface_config]) ∧
    (((sampleNew.run sampleCalls).immediate.aspect =
      if (sampleNew.run sampleCalls).immediate.window_size.1 <
          (sampleNew.run sampleCalls).immediate.window_size.2 then
        (1, ((sampleNew.run sampleCalls).immediate.window_size.2 : ℚ) /
          ((sampleNew.run sampleCalls).immediate.window_size.1 : ℚ))
      else
        (((sampleNew.run sampleCalls).immediate.window_size.1 : ℚ) /
          ((sampleNew.run sampleCalls).immediate.window_size.2 : ℚ), 1)) ∧
     min (sampleNew.run sampleCalls).immediate.aspect.1
       (sampleNew.run sampleCalls).immediate.aspect.2 = 1 ∧
     1 ≤ (sampleNew.run sampleCalls).immediate.aspect.1 ∧
     1 ≤ (sampleNew.run sampleCalls).immediate.aspect.2) :=
  ⟨rfl,
   aspect_pair_normalized (800, 600) sampleCaps sampleNew
     [.configure sampleNew.surface_config] rfl sampleCalls⟩

/-- Claim C10: after construction, no operation changes any surface
configuration field other than width and height; view_formats always equals
the singleton sRGB-suffixed configured format, and any view format that
`render()` requests is a member of view_formats. -/
theorem config_fields_stable (size : Nat × Nat) (surface_caps : SurfaceCapabilities)
    (r : Renderer) (effs : List Effect)
    (h : Renderer.new size surface_caps = .ok (r, effs)) (calls : List Call) :
    ConfigFixed r (r.run calls) ∧
    (r.run calls).surface_config.view_formats =
      [(r.run calls).surface_config.format.add_srgb_suffix] ∧
    ∀ size2 acquire f,
      Effect.createView f ∈ ((r.run calls).render size2 acquire).2 →
      f ∈ (r.run calls).surface_config.view_formats := by
  have hfix := run_config_fixed r calls
  have hview : r.surface_config.view_formats =
      [r.surface_config.format.add_srgb_suffix] := by
    obtain ⟨f, a, -, -, -, -, rfl, -⟩ := (new_ok_iff size surface_caps r effs).mp h
    rfl
  have hview2 : (r.run calls).surface_config.view_formats =
      [(r.run calls).surface_config.format.add_srgb_suffix] := by
    rw [hfix.2.2.2.2.2, hfix.2.1, hview]
  refine ⟨hfix, hview2, ?_⟩
  intro size2 acquire f hf
  rw [createView_in_render hf, hview2]
  exact List.mem_singleton_self _

/-- Witness for C10: construction at 800×600 followed by the sample call
sequence. -/
theorem config_fields_stable_witness :
    Renderer.new (800, 600) sampleCaps =
      .ok (sampleNew, [.configure sampleNew.surface_config]) ∧
    (ConfigFixed sampleNew (sampleNew.run sampleCalls) ∧
     (sampleNew.run sampleCalls).surface_config.view_formats =
       [(sampleNew.run sampleCalls).surface_config.format.add_srgb_suffix] ∧
     ∀ size2 acquire f,
       Effect.createView f ∈ ((sampleNew.run sampleCalls).render size2 acquire).2 →
       f ∈ (sampleNew.run sampleCalls).surface_config.view_formats) :=
  ⟨rfl,
   config_fields_stable (800, 600) sampleCaps sampleNew
     [.configure sampleNew.surface_config] rfl sampleCalls⟩

end RT
